import Mathlib

/-!
# Shallow embedding of the FckNat spot-instance rewrite aspect

This file embeds the construct-tree rewrite implemented by
`FckNatSpotInstanceAspect` (src/aspects/spot-instance-aspect.ts) and proves
properties of the `visit` dispatch and the `convertToSpotInstance` rewrite.

Modelling notes, each traced to the source:
* `addPropertyDeletionOverride('LaunchTemplate')` does not clear the
  `launchTemplate` field of the L1 construct; it records a deletion override
  that masks the field in the synthesized output.  The state therefore keeps
  the raw field and a boolean override flag, and `renderedLaunchTemplate`
  is the downstream-visible view.
* `asg.node.defaultChild as CfnAutoScalingGroup` is an unchecked cast; when
  `defaultChild` is absent the subsequent field read throws a TypeError in
  JavaScript, modelled as `Except.error`.  When the default child is some
  other construct, reading `.launchTemplate` on it yields `undefined`.
* `this.props.spotMaxPrice && ...` and `instanceType ? ... : undefined` use
  JavaScript truthiness: the empty string is falsy.
* `instanceType?.toString()` in `getInstanceTypeFromAsg` yields `undefined`
  when the `instanceType` key is present but holds a nullish value.
-/

/-- A `LaunchTemplateSpecificationProperty`: template id and version.
Both fields are optional in the CloudFormation property type. -/
structure LaunchTemplateSpec where
  launchTemplateId : Option String
  version : Option String
deriving Repr, DecidableEq

/-- One entry of the `overrides` list of a mixed-instances policy. -/
structure OverrideEntry where
  instanceType : String
deriving Repr, DecidableEq

/-- The `launchTemplate` part of a `MixedInstancesPolicyProperty`. -/
structure PolicyLaunchTemplate where
  launchTemplateSpecification : LaunchTemplateSpec
  overrides : Option (List OverrideEntry)
deriving Repr, DecidableEq

/-- The `instancesDistribution` part of a `MixedInstancesPolicyProperty`. -/
structure InstancesDistribution where
  onDemandPercentageAboveBaseCapacity : Nat
  spotAllocationStrategy : String
  spotMaxPrice : Option String
deriving Repr, DecidableEq

/-- A `MixedInstancesPolicyProperty` as constructed by the aspect. -/
structure MixedInstancesPolicy where
  launchTemplate : PolicyLaunchTemplate
  instancesDistribution : InstancesDistribution
deriving Repr, DecidableEq

/-- The mutable state of the L1 `CfnAutoScalingGroup` construct that the
rewrite touches: the raw `launchTemplate` field, the `mixedInstancesPolicy`
field, and whether a deletion override for the `LaunchTemplate` property
has been recorded. -/
structure CfnAsgState where
  launchTemplate : Option LaunchTemplateSpec
  mixedInstancesPolicy : Option MixedInstancesPolicy
  launchTemplateDeletionOverride : Bool
deriving Repr, DecidableEq

/-- The `LaunchTemplate` property as seen by the downstream synthesizer:
the raw field masked by the deletion override. -/
def CfnAsgState.renderedLaunchTemplate (s : CfnAsgState) : Option LaunchTemplateSpec :=
  if s.launchTemplateDeletionOverride then none else s.launchTemplate

/-- Downstream-visible coexistence of the two mutually exclusive shapes. -/
def CfnAsgState.bothShapesCoexist (s : CfnAsgState) : Bool :=
  s.renderedLaunchTemplate.isSome && s.mixedInstancesPolicy.isSome

/-- The default child of the visited L2 construct: either the expected
`CfnAutoScalingGroup` or some unrelated construct (on which reading the
`launchTemplate` field yields `undefined`). -/
inductive DefaultChild
  | cfnAutoScalingGroup (s : CfnAsgState)
  | otherConstruct
deriving Repr, DecidableEq

/-- Reading `.launchTemplate` through the unchecked cast: the field on the
real L1 construct, `undefined` on an unrelated construct. -/
def DefaultChild.readLaunchTemplate : DefaultChild → Option LaunchTemplateSpec
  | .cfnAutoScalingGroup s => s.launchTemplate
  | .otherConstruct => none

/-- The shape of `asg.node.scope` relevant to `getInstanceTypeFromAsg`:
whether the key `instanceType` is present (the JavaScript `in` check), and
the `toString()` of its value when the value is non-nullish. -/
structure ParentScope where
  hasInstanceTypeKey : Bool
  instanceTypeValue : Option String
deriving Repr, DecidableEq

/-- The runtime class of the visited construct, for the `instanceof
autoscaling.AutoScalingGroup` check in `visit`. -/
inductive ConstructKind
  | autoScalingGroup
  | otherKind (name : String)
deriving Repr, DecidableEq

/-- A visited construct-tree node: runtime class, construct id, construct
path, default child, parent scope, and attached metadata entries. -/
structure Node where
  kind : ConstructKind
  id : String
  path : String
  defaultChild : Option DefaultChild
  scope : Option ParentScope
  metadata : List (String × String)
deriving Repr, DecidableEq

/-- The closed enumeration of the `spotAllocationStrategy` option. -/
inductive SpotAllocationStrategy
  | lowestPrice
  | capacityOptimized
  | capacityOptimizedPrioritized
deriving Repr, DecidableEq

/-- The string literal each enumeration member stands for. -/
def SpotAllocationStrategy.render : SpotAllocationStrategy → String
  | .lowestPrice => "lowest-price"
  | .capacityOptimized => "capacity-optimized"
  | .capacityOptimizedPrioritized => "capacity-optimized-prioritized"

/-- `FckNatSpotInstanceAspectProps`: both options are optional. -/
structure FckNatSpotInstanceAspectProps where
  spotMaxPrice : Option String
  spotAllocationStrategy : Option SpotAllocationStrategy
deriving Repr, DecidableEq

/-- JavaScript truthiness of a possibly-undefined string: `undefined` and
the empty string are falsy. -/
def jsTruthy : Option String → Bool
  | none => false
  | some s => !(s == "")

/-- A thrown JavaScript error. -/
inductive JsError
  | typeError (msg : String)
deriving Repr, DecidableEq

/-- Severity of an emitted diagnostic (`console.warn` vs `console.error`). -/
inductive DiagnosticLevel
  | warning
  | error
deriving Repr, DecidableEq

/-- Reason attached to a skipped rewrite. -/
inductive SkipReason
  | noLaunchTemplateFound
deriving Repr, DecidableEq

/-- Outcome of one invocation of the rewriter on a matched node. -/
inductive RewriteOutcome
  | mutated (policy : MixedInstancesPolicy)
  | skipped (reason : SkipReason)
deriving Repr, DecidableEq

/-- Result of running the rewriter: the node after the call and the
observable outcome and diagnostics. -/
structure RewriteResult where
  node : Node
  outcome : RewriteOutcome
  diagnostics : List (DiagnosticLevel × String)
deriving Repr, DecidableEq

/-- `getInstanceTypeFromAsg`: probe `asg.node.scope` for an `instanceType`
key; `instanceType?.toString()` of a nullish value is `undefined`. -/
def getInstanceTypeFromAsg (scope : Option ParentScope) : Option String :=
  match scope with
  | none => none
  | some parent =>
    if parent.hasInstanceTypeKey then parent.instanceTypeValue else none

/-- The mixed-instances policy literal built by `convertToSpotInstance` from
the prior launch-template fragment, the best-effort instance-type hint and
the caller-supplied options. -/
def buildPolicy (props : FckNatSpotInstanceAspectProps)
    (lt : LaunchTemplateSpec) (instanceType : Option String) : MixedInstancesPolicy :=
  { launchTemplate :=
      { launchTemplateSpecification :=
          { launchTemplateId := lt.launchTemplateId
            version := lt.version }
        overrides :=
          if jsTruthy instanceType then
            some [{ instanceType := instanceType.getD "" }]
          else
            none }
    instancesDistribution :=
      { onDemandPercentageAboveBaseCapacity := 0
        spotAllocationStrategy :=
          (props.spotAllocationStrategy.getD SpotAllocationStrategy.capacityOptimized).render
        spotMaxPrice :=
          if jsTruthy props.spotMaxPrice then props.spotMaxPrice else none } }

/-- The `RewriteResult` of the warn-and-return path of
`convertToSpotInstance`: node untouched, one warning diagnostic. -/
def skipResult (node : Node) : RewriteResult :=
  { node := node
    outcome := RewriteOutcome.skipped SkipReason.noLaunchTemplateFound
    diagnostics :=
      [(DiagnosticLevel.warning,
        "FckNatSpotInstanceAspect: Could not find launch template for ASG " ++ node.path)] }

/-- `convertToSpotInstance`.  Reads `asg.node.defaultChild` through an
unchecked cast (absence throws a TypeError on the subsequent field read),
warns and returns when the launch-template field is falsy, and otherwise
records the deletion override, assigns the mixed-instances policy and
appends the spot-enabled metadata entry. -/
def convertToSpotInstance (props : FckNatSpotInstanceAspectProps)
    (node : Node) : Except JsError RewriteResult :=
  match node.defaultChild with
  | none =>
    Except.error (JsError.typeError
      "Cannot read properties of undefined (reading launchTemplate)")
  | some DefaultChild.otherConstruct =>
    Except.ok (skipResult node)
  | some (DefaultChild.cfnAutoScalingGroup s) =>
    match s.launchTemplate with
    | none => Except.ok (skipResult node)
    | some lt =>
      let instanceType := getInstanceTypeFromAsg node.scope
      let afterDeletion : CfnAsgState :=
        { s with launchTemplateDeletionOverride := true }
      let policy := buildPolicy props lt instanceType
      let afterInstall : CfnAsgState :=
        { afterDeletion with mixedInstancesPolicy := some policy }
      Except.ok
        { node :=
            { node with
              defaultChild := some (DefaultChild.cfnAutoScalingGroup afterInstall)
              metadata := node.metadata ++ [("fck-nat:spot-enabled", "true")] }
          outcome := RewriteOutcome.mutated policy
          diagnostics := [] }

/-- The match predicate of `visit`: `instanceof autoscaling.AutoScalingGroup`
and construct id equal to the sentinel `FckNatAsg`. -/
def isMatch (node : Node) : Bool :=
  node.kind == ConstructKind.autoScalingGroup && node.id == "FckNatAsg"

/-- Result of one `visit` call: the node afterwards, whether the visitor
delegated to the rewriter, and the rewriter's outcome and diagnostics. -/
structure VisitResult where
  node : Node
  delegated : Bool
  outcome : Option RewriteOutcome
  diagnostics : List (DiagnosticLevel × String)
deriving Repr, DecidableEq

/-- The `VisitResult` of a non-matching node: nothing happens. -/
def untouchedVisit (node : Node) : VisitResult :=
  { node := node, delegated := false, outcome := none, diagnostics := [] }

/-- `visit`: the two nested checks of the source, delegating to
`convertToSpotInstance` exactly when both succeed. -/
def visit (props : FckNatSpotInstanceAspectProps)
    (node : Node) : Except JsError VisitResult :=
  if node.kind = ConstructKind.autoScalingGroup then
    if node.id = "FckNatAsg" then
      (convertToSpotInstance props node).map fun r =>
        { node := r.node
          delegated := true
          outcome := some r.outcome
          diagnostics := r.diagnostics }
    else
      Except.ok (untouchedVisit node)
  else
    Except.ok (untouchedVisit node)

/-- Observer: the policy installed by a rewrite, when it mutated. -/
def installedPolicy (e : Except JsError RewriteResult) : Option MixedInstancesPolicy :=
  match e with
  | Except.ok r =>
    match r.outcome with
    | RewriteOutcome.mutated p => some p
    | RewriteOutcome.skipped _ => none
  | Except.error _ => none

/-- Sample launch-template fragment used for concrete witnesses. -/
def sampleLT : LaunchTemplateSpec :=
  { launchTemplateId := some "lt-0123456789abcdef0", version := some "1" }

/-- Sample pre-rewrite L1 state used for concrete witnesses. -/
def sampleCfn : CfnAsgState :=
  { launchTemplate := some sampleLT
    mixedInstancesPolicy := none
    launchTemplateDeletionOverride := false }

/-- Sample matched node used for concrete witnesses. -/
def sampleNode : Node :=
  { kind := ConstructKind.autoScalingGroup
    id := "FckNatAsg"
    path := "Stack/MyVpc/FckNatAsg"
    defaultChild := some (DefaultChild.cfnAutoScalingGroup sampleCfn)
    scope := some { hasInstanceTypeKey := true, instanceTypeValue := some "t4g.nano" }
    metadata := [] }

/-- Default (empty) aspect options. -/
def defaultProps : FckNatSpotInstanceAspectProps :=
  { spotMaxPrice := none, spotAllocationStrategy := none }

/-- Options with a nonempty maximum spot price. -/
def pricedProps : FckNatSpotInstanceAspectProps :=
  { spotMaxPrice := some "0.005", spotAllocationStrategy := none }

/-- Options whose maximum spot price is supplied as the empty string. -/
def emptyPriceProps : FckNatSpotInstanceAspectProps :=
  { spotMaxPrice := some "", spotAllocationStrategy := none }

/-- A matched node whose default child has no launch-template field
(the possibly-already-rewritten shape). -/
def noLtNode : Node :=
  { sampleNode with
    defaultChild := some (DefaultChild.cfnAutoScalingGroup
      { launchTemplate := none
        mixedInstancesPolicy := none
        launchTemplateDeletionOverride := false }) }

/-- A matched node with no default child at all. -/
def orphanNode : Node :=
  { sampleNode with defaultChild := none }

/-- A matched node whose parent exposes an `instanceType` key whose
value stringifies to the empty string. -/
def emptyHintNode : Node :=
  { sampleNode with
    scope := some { hasInstanceTypeKey := true, instanceTypeValue := some "" } }

/-- A node with the sentinel id but an unrelated runtime class. -/
def wrongKindNode : Node :=
  { sampleNode with kind := ConstructKind.otherKind "CfnBucket" }

/-- An auto-scaling-group node with a different construct id. -/
def wrongIdNode : Node :=
  { sampleNode with id := "OtherAsg" }

/-- Observer: true exactly when the outcome is a skip. -/
def RewriteOutcome.isSkipped : RewriteOutcome → Bool
  | RewriteOutcome.mutated _ => false
  | RewriteOutcome.skipped _ => true

/-- Observer: the `CfnAutoScalingGroup` state of the result node's default
child, when the rewrite returned normally and such a child exists. -/
def resultChildState (e : Except JsError RewriteResult) : Option CfnAsgState :=
  match e with
  | Except.ok r =>
    match r.node.defaultChild with
    | some (DefaultChild.cfnAutoScalingGroup s) => some s
    | _ => none
  | Except.error _ => none

/-- Running the rewrite and then running it again on the resulting node,
keeping both results. -/
def rewriteTwice (props : FckNatSpotInstanceAspectProps)
    (node : Node) : Except JsError (RewriteResult × RewriteResult) :=
  (convertToSpotInstance props node).bind fun r1 =>
    (convertToSpotInstance props r1.node).map fun r2 => (r1, r2)

/-- C1: for every matched node that has a launch-template-reference fragment
before the rewrite, after the rewrite the launch-template fragment is absent
from the downstream-visible property bag, a mixed-instances policy is
present, and the installed policy's launch template id and version equal
the pre-rewrite fragment's id and version. -/
theorem rewrite_replaces_launch_template_with_policy
    (props : FckNatSpotInstanceAspectProps) (node : Node)
    (s : CfnAsgState) (lt : LaunchTemplateSpec)
    (hchild : node.defaultChild = some (DefaultChild.cfnAutoScalingGroup s))
    (hlt : s.launchTemplate = some lt) :
    (resultChildState (convertToSpotInstance props node)).map
        CfnAsgState.renderedLaunchTemplate = some none ∧
    ((resultChildState (convertToSpotInstance props node)).bind
        CfnAsgState.mixedInstancesPolicy).map
        (fun p => p.launchTemplate.launchTemplateSpecification) =
      some { launchTemplateId := lt.launchTemplateId, version := lt.version } := by
  simp [convertToSpotInstance, hchild, hlt, resultChildState, buildPolicy,
    CfnAsgState.renderedLaunchTemplate]

/-- Witness for C1 at a concrete matched node. -/
theorem rewrite_replaces_launch_template_with_policy_witness :
    (resultChildState (convertToSpotInstance defaultProps sampleNode)).map
        CfnAsgState.renderedLaunchTemplate = some none ∧
    ((resultChildState (convertToSpotInstance defaultProps sampleNode)).bind
        CfnAsgState.mixedInstancesPolicy).map
        (fun p => p.launchTemplate.launchTemplateSpecification) =
      some { launchTemplateId := sampleLT.launchTemplateId, version := sampleLT.version } :=
  rewrite_replaces_launch_template_with_policy defaultProps sampleNode sampleCfn sampleLT
    rfl rfl

/-- C2: no state a caller can observe after the rewrite has both the
downstream-visible launch-template fragment and a mixed-instances policy:
whatever node the rewrite is given, the default child of the node it
returns never exposes the two mutually exclusive shapes together. -/
theorem rewrite_never_exposes_coexisting_shapes
    (props : FckNatSpotInstanceAspectProps) (node : Node) :
    ((resultChildState (convertToSpotInstance props node)).map
        CfnAsgState.bothShapesCoexist).getD false = false := by
  rcases node with ⟨kind, id, path, child, scope, metadata⟩
  rcases child with _ | child
  · simp [convertToSpotInstance, resultChildState]
  · rcases child with s | _
    · rcases hlt : s.launchTemplate with _ | lt
      · simp [convertToSpotInstance, resultChildState, skipResult, hlt,
          CfnAsgState.bothShapesCoexist, CfnAsgState.renderedLaunchTemplate]
      · simp [convertToSpotInstance, resultChildState, hlt,
          CfnAsgState.bothShapesCoexist, CfnAsgState.renderedLaunchTemplate]
    · simp [convertToSpotInstance, resultChildState, skipResult]

/-- C9: every installed mixed-instances policy has an on-demand percentage
above base capacity of zero. -/
theorem on_demand_percentage_always_zero
    (props : FckNatSpotInstanceAspectProps) (node : Node)
    (p : MixedInstancesPolicy)
    (hp : installedPolicy (convertToSpotInstance props node) = some p) :
    p.instancesDistribution.onDemandPercentageAboveBaseCapacity = 0 := by
  rcases node with ⟨kind, id, path, child, scope, metadata⟩
  rcases child with _ | child
  · simp [convertToSpotInstance, installedPolicy] at hp
  · rcases child with s | _
    · rcases hlt : s.launchTemplate with _ | lt
      · simp [convertToSpotInstance, installedPolicy, hlt, skipResult] at hp
      · simp [convertToSpotInstance, installedPolicy, hlt] at hp
        subst hp
        rfl
    · simp [convertToSpotInstance, installedPolicy, skipResult] at hp

/-- Witness for C9 at a concrete matched node. -/
theorem on_demand_percentage_always_zero_witness :
    (buildPolicy defaultProps sampleLT
        (some "t4g.nano")).instancesDistribution.onDemandPercentageAboveBaseCapacity = 0 :=
  on_demand_percentage_always_zero defaultProps sampleNode
    (buildPolicy defaultProps sampleLT (some "t4g.nano")) rfl

/-- C4: `visit` delegates to the rewriter exactly when the node is an
auto-scaling-group construct whose id is the sentinel `FckNatAsg`; the
match predicate is the conjunction of the two checks, on a match the visit
is the delegated rewrite, and on a non-match the node is left untouched. -/
theorem visit_delegates_iff_sentinel_asg
    (props : FckNatSpotInstanceAspectProps) (node : Node) :
    (isMatch node = true ↔
      (node.kind = ConstructKind.autoScalingGroup ∧ node.id = "FckNatAsg")) ∧
    (isMatch node = true →
      visit props node = (convertToSpotInstance props node).map fun r =>
        { node := r.node
          delegated := true
          outcome := some r.outcome
          diagnostics := r.diagnostics }) ∧
    (isMatch node = false → visit props node = Except.ok (untouchedVisit node)) := by
  refine ⟨?_, ?_, ?_⟩
  · simp [isMatch]
  · intro h
    simp only [isMatch, Bool.and_eq_true, beq_iff_eq] at h
    simp [visit, h.1, h.2]
  · intro h
    simp only [isMatch, Bool.and_eq_true, beq_iff_eq, not_and] at h
    by_cases hk : node.kind = ConstructKind.autoScalingGroup
    · have hid : ¬ node.id = "FckNatAsg" := by
        intro hid
        simp [hk, hid] at h
      simp [visit, hk, hid]
    · simp [visit, hk]

/-- Witness for C4: a full match is delegated to the rewriter, while the
sentinel id under an unrelated construct kind is left untouched. -/
theorem visit_delegates_iff_sentinel_asg_witness :
    (visit defaultProps sampleNode = (convertToSpotInstance defaultProps sampleNode).map fun r =>
      { node := r.node
        delegated := true
        outcome := some r.outcome
        diagnostics := r.diagnostics }) ∧
    visit defaultProps wrongKindNode = Except.ok (untouchedVisit wrongKindNode) :=
  ⟨(visit_delegates_iff_sentinel_asg defaultProps sampleNode).2.1 rfl,
   (visit_delegates_iff_sentinel_asg defaultProps wrongKindNode).2.2 rfl⟩

/-- C5: on a matched node whose default child carries no launch-template
fragment, the rewrite returns the skip result: outcome skipped with reason
no-launch-template-found, exactly one warning-level diagnostic, and the
node returned unchanged. -/
theorem rewrite_skips_with_warning_when_no_launch_template
    (props : FckNatSpotInstanceAspectProps) (node : Node) (child : DefaultChild)
    (hchild : node.defaultChild = some child)
    (hlt : child.readLaunchTemplate = none) :
    convertToSpotInstance props node = Except.ok (skipResult node) ∧
    (skipResult node).node = node ∧
    (skipResult node).outcome = RewriteOutcome.skipped SkipReason.noLaunchTemplateFound ∧
    (skipResult node).diagnostics.map Prod.fst = [DiagnosticLevel.warning] := by
  refine ⟨?_, rfl, rfl, rfl⟩
  rcases child with s | _
  · simp only [DefaultChild.readLaunchTemplate] at hlt
    simp [convertToSpotInstance, hchild, hlt]
  · simp [convertToSpotInstance, hchild]

/-- Witness for C5 at a concrete matched node without a launch template. -/
theorem rewrite_skips_with_warning_when_no_launch_template_witness :
    convertToSpotInstance defaultProps noLtNode = Except.ok (skipResult noLtNode) ∧
    (skipResult noLtNode).node = noLtNode ∧
    (skipResult noLtNode).outcome = RewriteOutcome.skipped SkipReason.noLaunchTemplateFound ∧
    (skipResult noLtNode).diagnostics.map Prod.fst = [DiagnosticLevel.warning] :=
  rewrite_skips_with_warning_when_no_launch_template defaultProps noLtNode
    (DefaultChild.cfnAutoScalingGroup
      { launchTemplate := none
        mixedInstancesPolicy := none
        launchTemplateDeletionOverride := false })
    rfl rfl

/-- C10: a node that does not match the pattern (wrong id, or the sentinel
id under a different construct kind) is left entirely untouched by `visit`:
the returned node is the input node itself, nothing was delegated and no
diagnostics were emitted. -/
theorem non_matching_node_untouched
    (props : FckNatSpotInstanceAspectProps) (node : Node)
    (h : node.id ≠ "FckNatAsg" ∨ node.kind ≠ ConstructKind.autoScalingGroup) :
    visit props node =
      Except.ok { node := node, delegated := false, outcome := none, diagnostics := [] } := by
  rcases h with h | h
  · by_cases hk : node.kind = ConstructKind.autoScalingGroup
    · simp [visit, hk, h, untouchedVisit]
    · simp [visit, hk, untouchedVisit]
  · simp [visit, h, untouchedVisit]

/-- Witness for C10 at a concrete auto-scaling-group node with a
non-sentinel id. -/
theorem non_matching_node_untouched_witness :
    visit defaultProps wrongIdNode =
      Except.ok { node := wrongIdNode, delegated := false, outcome := none, diagnostics := [] } :=
  non_matching_node_untouched defaultProps wrongIdNode (Or.inl (by decide))

/-- Observer: whether the rewrite ended in a thrown error. -/
def rewriteThrew (e : Except JsError RewriteResult) : Bool :=
  match e with
  | Except.ok _ => false
  | Except.error _ => true

/-- Helper: a policy is installed only on the mutated path, and it is the
`buildPolicy` literal built from the node's launch-template fragment and
the hint derived from the node's scope. -/
theorem installedPolicy_shape
    (props : FckNatSpotInstanceAspectProps) (node : Node)
    (p : MixedInstancesPolicy)
    (hp : installedPolicy (convertToSpotInstance props node) = some p) :
    ∃ s lt, node.defaultChild = some (DefaultChild.cfnAutoScalingGroup s) ∧
      s.launchTemplate = some lt ∧
      p = buildPolicy props lt (getInstanceTypeFromAsg node.scope) := by
  rcases hchild : node.defaultChild with _ | child
  · simp [convertToSpotInstance, installedPolicy, hchild] at hp
  · rcases child with s | _
    · rcases hlt : s.launchTemplate with _ | lt
      · simp [convertToSpotInstance, installedPolicy, hchild, hlt, skipResult] at hp
      · refine ⟨s, lt, rfl, hlt, ?_⟩
        simp [convertToSpotInstance, installedPolicy, hchild, hlt] at hp
        exact hp.symm
    · simp [convertToSpotInstance, installedPolicy, hchild, skipResult] at hp

/-- C6 counterexample: a matched node with no default child makes the
rewrite throw a TypeError instead of terminating normally. -/
theorem missing_default_child_throws_counterexample :
    isMatch orphanNode = true ∧
    convertToSpotInstance defaultProps orphanNode =
      Except.error (JsError.typeError
        "Cannot read properties of undefined (reading launchTemplate)") :=
  ⟨rfl, rfl⟩

/-- C6 amended: whenever the matched node has a default child at all (of
whatever construct kind, and under any parent shape), the rewrite
terminates normally without throwing. -/
theorem rewrite_total_when_default_child_present
    (props : FckNatSpotInstanceAspectProps) (node : Node) (child : DefaultChild)
    (hchild : node.defaultChild = some child) :
    rewriteThrew (convertToSpotInstance props node) = false := by
  rcases child with s | _
  · rcases hlt : s.launchTemplate with _ | lt
    · simp [convertToSpotInstance, hchild, hlt, rewriteThrew]
    · simp [convertToSpotInstance, hchild, hlt, rewriteThrew]
  · simp [convertToSpotInstance, hchild, rewriteThrew]

/-- Witness for the amended C6 at a concrete node whose default child has
no launch template. -/
theorem rewrite_total_when_default_child_present_witness :
    rewriteThrew (convertToSpotInstance defaultProps noLtNode) = false :=
  rewrite_total_when_default_child_present defaultProps noLtNode
    (DefaultChild.cfnAutoScalingGroup
      { launchTemplate := none
        mixedInstancesPolicy := none
        launchTemplateDeletionOverride := false })
    rfl

/-- C7 counterexample: a maximum price supplied as the empty string is
dropped from the installed policy rather than copied verbatim. -/
theorem empty_max_price_dropped_counterexample :
    emptyPriceProps.spotMaxPrice = some "" ∧
    (installedPolicy (convertToSpotInstance emptyPriceProps sampleNode)).map
      (fun p => p.instancesDistribution.spotMaxPrice) = some none :=
  ⟨rfl, rfl⟩

/-- C7 amended: when `spotMaxPrice` is omitted or supplied as the empty
string, the installed policy has no maximum-price field; when supplied
nonempty, the field equals the supplied string verbatim. -/
theorem max_price_field_matches_options
    (props : FckNatSpotInstanceAspectProps) (node : Node)
    (p : MixedInstancesPolicy)
    (hp : installedPolicy (convertToSpotInstance props node) = some p) :
    (props.spotMaxPrice = none ∨ props.spotMaxPrice = some "" →
      p.instancesDistribution.spotMaxPrice = none) ∧
    (∀ v, props.spotMaxPrice = some v → v ≠ "" →
      p.instancesDistribution.spotMaxPrice = some v) := by
  obtain ⟨s, lt, hchild, hlt, hbuild⟩ := installedPolicy_shape props node p hp
  subst hbuild
  constructor
  · rintro (hm | hm) <;> simp [buildPolicy, hm, jsTruthy]
  · intro v hm hv
    simp [buildPolicy, hm, jsTruthy, hv]

/-- Witness for the amended C7: a nonempty supplied price lands verbatim in
the policy installed on a concrete matched node. -/
theorem max_price_field_matches_options_witness :
    (buildPolicy pricedProps sampleLT
        (some "t4g.nano")).instancesDistribution.spotMaxPrice = some "0.005" :=
  (max_price_field_matches_options pricedProps sampleNode
      (buildPolicy pricedProps sampleLT (some "t4g.nano")) rfl).2 "0.005" rfl (by decide)

/-- C8 counterexample: a parent exposing an instance-type value that
stringifies to the empty string yields a policy with no override entry at
all, not a one-entry override list carrying that value. -/
theorem empty_instance_type_hint_counterexample :
    getInstanceTypeFromAsg emptyHintNode.scope = some "" ∧
    (installedPolicy (convertToSpotInstance defaultProps emptyHintNode)).map
      (fun p => p.launchTemplate.overrides) = some none :=
  ⟨rfl, rfl⟩

/-- C8 amended: when the parent yields a nonempty instance-type hint, the
installed policy's override list is exactly one entry carrying that value;
when the hint is absent or stringifies empty, the overrides field is
omitted.  (Totality on hint absence is `rewrite_total_when_default_child_present`.) -/
theorem overrides_follow_instance_type_hint
    (props : FckNatSpotInstanceAspectProps) (node : Node)
    (p : MixedInstancesPolicy)
    (hp : installedPolicy (convertToSpotInstance props node) = some p) :
    (∀ v, getInstanceTypeFromAsg node.scope = some v → v ≠ "" →
      p.launchTemplate.overrides = some [{ instanceType := v }]) ∧
    (getInstanceTypeFromAsg node.scope = none ∨ getInstanceTypeFromAsg node.scope = some "" →
      p.launchTemplate.overrides = none) := by
  obtain ⟨s, lt, hchild, hlt, hbuild⟩ := installedPolicy_shape props node p hp
  subst hbuild
  constructor
  · intro v hv hne
    simp [buildPolicy, hv, jsTruthy, hne]
  · rintro (hv | hv) <;> simp [buildPolicy, hv, jsTruthy]

/-- Witness for the amended C8: the "t4g.nano" hint of a concrete matched
node becomes the single override entry. -/
theorem overrides_follow_instance_type_hint_witness :
    (buildPolicy defaultProps sampleLT (some "t4g.nano")).launchTemplate.overrides =
      some [{ instanceType := "t4g.nano" }] :=
  (overrides_follow_instance_type_hint defaultProps sampleNode
      (buildPolicy defaultProps sampleLT (some "t4g.nano")) rfl).1 "t4g.nano" rfl (by decide)

/-- C3 counterexample: running the rewrite a second time on the node
produced by a first successful rewrite does not produce a skip — both
passes report a mutation, because the deletion override leaves the raw
launch-template field in place. -/
theorem second_pass_skipped_counterexample :
    (rewriteTwice defaultProps sampleNode).map (fun pr => pr.1.outcome.isSkipped) =
      Except.ok false ∧
    (rewriteTwice defaultProps sampleNode).map (fun pr => pr.2.outcome.isSkipped) =
      Except.ok false :=
  ⟨rfl, rfl⟩

/-- C3 amended: the second pass over an already-mutated node re-runs the
full rewrite instead of skipping, but it is idempotent on the property
bag: the second pass reports a mutation with the same outcome, leaves the
default child exactly as the first pass left it, and appends one duplicate
spot-enabled metadata entry. -/
theorem second_pass_remutates_with_identical_state
    (props : FckNatSpotInstanceAspectProps) (node : Node)
    (s : CfnAsgState) (lt : LaunchTemplateSpec)
    (hchild : node.defaultChild = some (DefaultChild.cfnAutoScalingGroup s))
    (hlt : s.launchTemplate = some lt) :
    (rewriteTwice props node).map (fun pr => pr.2.outcome.isSkipped) = Except.ok false ∧
    (rewriteTwice props node).map (fun pr => pr.2.outcome) =
      (rewriteTwice props node).map (fun pr => pr.1.outcome) ∧
    (rewriteTwice props node).map (fun pr => pr.2.node.defaultChild) =
      (rewriteTwice props node).map (fun pr => pr.1.node.defaultChild) ∧
    (rewriteTwice props node).map (fun pr => pr.2.node.metadata) =
      (rewriteTwice props node).map
        (fun pr => pr.1.node.metadata ++ [("fck-nat:spot-enabled", "true")]) := by
  refine ⟨?_, ?_, ?_, ?_⟩ <;>
    simp [rewriteTwice, convertToSpotInstance, hchild, hlt, RewriteOutcome.isSkipped,
      Except.bind, Except.map]

/-- Witness for the amended C3 at a concrete matched node. -/
theorem second_pass_remutates_with_identical_state_witness :
    (rewriteTwice defaultProps sampleNode).map (fun pr => pr.2.outcome.isSkipped) =
      Except.ok false ∧
    (rewriteTwice defaultProps sampleNode).map (fun pr => pr.2.outcome) =
      (rewriteTwice defaultProps sampleNode).map (fun pr => pr.1.outcome) ∧
    (rewriteTwice defaultProps sampleNode).map (fun pr => pr.2.node.defaultChild) =
      (rewriteTwice defaultProps sampleNode).map (fun pr => pr.1.node.defaultChild) ∧
    (rewriteTwice defaultProps sampleNode).map (fun pr => pr.2.node.metadata) =
      (rewriteTwice defaultProps sampleNode).map
        (fun pr => pr.1.node.metadata ++ [("fck-nat:spot-enabled", "true")]) :=
  second_pass_remutates_with_identical_state defaultProps sampleNode sampleCfn sampleLT
    rfl rfl
